import Mathlib

/-!
Verification of the resilient-operation core of the No-IP auto renewer
(noip_renewer_v2.py): retry executor, backoff policy, error classifier,
per-host renewal decision logic, orchestration result aggregation,
final-notification guard, and the scheduler loop.

The Python code is shallowly embedded: exceptions become an explicit error
type carried in `Except`, page interactions become an abstract snapshot of
the observations the code makes on the page, and time stamps become natural
numbers of seconds.
-/

namespace NoIP

/-- Embeds the `RenewalStatus` enum of noip_renewer_v2.py. -/
inductive RenewalStatus where
  | success
  | failed
  | captchaRequired
  | retryNeeded
  | manualIntervention
  | retryExhausted
  | networkError
  | timeoutError
  | noRenewalNeeded
  deriving DecidableEq, Repr

/-- Embeds the string value of each `RenewalStatus` member. -/
def RenewalStatus.value : RenewalStatus → String
  | .success => "success"
  | .failed => "failed"
  | .captchaRequired => "captcha_required"
  | .retryNeeded => "retry_needed"
  | .manualIntervention => "manual_intervention"
  | .retryExhausted => "retry_exhausted"
  | .networkError => "network_error"
  | .timeoutError => "timeout_error"
  | .noRenewalNeeded => "no_renewal_needed"

/-- Embeds the Python exception values the retry machinery distinguishes:
`NonRetryableError`, `RetryableError`, and any other `Exception`, each
carrying its message string. -/
inductive PyError where
  | nonRetryableError (msg : String)
  | retryableError (msg : String)
  | otherError (msg : String)
  deriving DecidableEq, Repr

/-- True exactly when the exception would be caught by the
`except NonRetryableError` clause of `retry_with_backoff`. -/
def PyError.isNonRetryable : PyError → Bool
  | .nonRetryableError _ => true
  | _ => false

/-- Embeds the `RetryConfig` dataclass.  Delays are modelled as rationals. -/
structure RetryConfig where
  max_retries : Nat := 3
  base_delay : ℚ := 1
  max_delay : ℚ := 60
  exponential_base : ℚ := 2
  jitter : Bool := true

/-- Embeds `calculate_retry_delay`.  The call `random.random()` is modelled
by the explicit parameter `rand`, the value drawn from `[0, 1)`. -/
def calculate_retry_delay (cfg : RetryConfig) (attempt : Nat) (rand : ℚ) : ℚ :=
  let delay := cfg.base_delay * cfg.exponential_base ^ attempt
  let delay2 := min delay cfg.max_delay
  if cfg.jitter then delay2 + delay2 * (1/10) * rand else delay2

/-- Observable trace of one `retry_with_backoff` call: its final result, the
number of invocations of the wrapped function, and the number of backoff
sleeps performed. -/
structure RetryTrace (α : Type) where
  result : Except PyError α
  invocations : Nat
  waits : Nat
  deriving Repr

/-- Embeds the loop body of `retry_with_backoff`.  `op i` is the outcome of
the i-th invocation of the wrapped function (the function is stateful in the
source, so successive invocations may differ).  `fuel` is the number of loop
iterations left (`max_retries - attempt`); `last` is `last_exception`.  A
sleep happens after a retryable failure exactly when
`attempt < max_retries - 1`, i.e. when at least one iteration remains. -/
def retryAux (op : Nat → Except PyError α) :
    Nat → Nat → Option PyError → RetryTrace α
  | _, 0, last =>
    { result := .error (last.getD (.otherError "Retry exhausted"))
      invocations := 0, waits := 0 }
  | attempt, fuel + 1, _ =>
    match op attempt with
    | .ok v => { result := .ok v, invocations := 1, waits := 0 }
    | .error e =>
      if e.isNonRetryable then
        { result := .error e, invocations := 1, waits := 0 }
      else
        let rest := retryAux op (attempt + 1) fuel (some e)
        { result := rest.result
          invocations := rest.invocations + 1
          waits := rest.waits + (if 0 < fuel then 1 else 0) }

/-- Embeds `retry_with_backoff`: run `op` up to `max_retries` times,
re-raising a `NonRetryableError` immediately, retrying any other exception,
and raising the last exception once attempts are exhausted. -/
def retry_with_backoff (max_retries : Nat) (op : Nat → Except PyError α) :
    RetryTrace α :=
  retryAux op 0 max_retries none

/-- Substring test on character lists, embedding the Python `in` operator on
strings. -/
def charsContain (haystack needle : List Char) : Bool :=
  match haystack with
  | [] => needle.isEmpty
  | _ :: t => needle.isPrefixOf haystack || charsContain t needle

/-- Substring test on strings, embedding the Python `in` operator. -/
def strContains (haystack needle : String) : Bool :=
  charsContain haystack.toList needle.toList

/-- Embeds `any(keyword in error_msg for keyword in kws)`. -/
def containsAny (haystack : List Char) (kws : List String) : Bool :=
  kws.any (fun k => charsContain haystack k.toList)

/-- ASCII lowercasing of one character, embedding Python `str.lower` on the
ASCII error messages involved. -/
def lowerChar (c : Char) : Char :=
  if 65 ≤ c.toNat ∧ c.toNat ≤ 90 then Char.ofNat (c.toNat + 32) else c

/-- ASCII lowercasing of a character list, embedding Python `str.lower`. -/
def lowerChars (cs : List Char) : List Char := cs.map lowerChar

/-- Embeds the error-classification ladder inside `safe_page_operation`:
lowercase the message, then test network, locator, authorization keywords in
that order, defaulting to a generic retryable error. -/
def classify_error (msg : String) : PyError :=
  let error_msg := lowerChars msg.toList
  if containsAny error_msg ["timeout", "network", "connection"] then
    .retryableError ("Network error: " ++ msg)
  else if charsContain error_msg "element not found".toList
      || charsContain error_msg "locator".toList then
    .retryableError ("Element not found: " ++ msg)
  else if containsAny error_msg ["permission", "unauthorized", "forbidden"] then
    .nonRetryableError ("Authorization error: " ++ msg)
  else
    .retryableError ("Generic error: " ++ msg)

/-- Embeds `wrapped_operation` inside `safe_page_operation`: when the page
is not initialized the guard raises `NonRetryableError("Page not
initialized")`; that exception, like any exception from the wrapped page
operation, is caught by the enclosing `except Exception` clause and
re-raised through the keyword classifier.  Page-operation failures are
modelled by their message string. -/
def wrapped_operation (page_initialized : Bool) (op : Except String α) :
    Except PyError α :=
  let attempt : Except String α :=
    if page_initialized then op else .error "Page not initialized"
  match attempt with
  | .ok v => .ok v
  | .error msg => .error (classify_error msg)

/-- Embeds `safe_page_operation`: run the wrapped, classifying operation
through `retry_with_backoff`.  `ops i` is the raw outcome of the i-th
invocation of the underlying page operation. -/
def safe_page_operation (max_retries : Nat) (page_initialized : Bool)
    (ops : Nat → Except String α) : RetryTrace α :=
  retry_with_backoff max_retries
    (fun i => wrapped_operation page_initialized (ops i))

/-- The locator the code ends up using as `host_row` in `_renew_single_host`:
the `tr:has-text(host)` rows, the `*:has-text(host)` elements, the
case-insensitive filter, or the partial match on the leading label of the
host name. -/
inductive RowSel where
  | trRow
  | elemRow
  | ciRow
  | subRow
  deriving DecidableEq, Repr

/-- Snapshot of the observations `_renew_single_host` makes on the page:
element counts for each locator it queries and whether the page content
shown after clicking contains one of the success-indicator phrases. -/
structure PageView where
  /-- count of `tr:has-text(host)` rows -/
  tr_row_count : Nat
  /-- count of `*:has-text(host)` elements -/
  host_elem_count : Nat
  /-- count of elements from the case-insensitive filter on the host name -/
  ci_count : Nat
  /-- count of `*:has-text(domain_part)` elements (leading label of host) -/
  sub_count : Nat
  /-- count of Renew/Confirm buttons or links anywhere on the page -/
  page_renew_confirm_count : Nat
  /-- count of Extend/Update buttons or links anywhere on the page -/
  page_extend_update_count : Nat
  /-- count of Confirm/Renew buttons inside the given `host_row` locator -/
  row_button_count : RowSel → Nat
  /-- whether the page content after activation contains a success phrase
  ("successfully renewed", "renewed successfully", "confirmation",
  "confirmed") -/
  content_success : Bool

/-- Embeds the success-verification tail of `_renew_single_host`: scan the
page content for a success indicator, returning SUCCESS or RETRY_NEEDED. -/
def checkRenewalContent (p : PageView) : RenewalStatus :=
  if p.content_success then RenewalStatus.success else RenewalStatus.retryNeeded

/-- Embeds the second half of `_renew_single_host` (from the comment
"Search for Confirm or Renew button in host row or anywhere on page"):
look for a button in `host_row`; failing that, for Renew/Confirm then
Extend/Update buttons page-wide; click whatever is found and verify, or
return NO_RENEWAL_NEEDED when nothing is found.  The second component
counts control activations (clicks), continuing the count from the first
half. -/
def renewButtonPhase (p : PageView) (row : RowSel) (clicks : Nat) :
    RenewalStatus × Nat :=
  if p.row_button_count row == 0 then
    if 0 < p.page_renew_confirm_count then
      (checkRenewalContent p, clicks + 1)
    else if 0 < p.page_extend_update_count then
      (checkRenewalContent p, clicks + 1)
    else
      (RenewalStatus.noRenewalNeeded, clicks)
  else
    (checkRenewalContent p, clicks + 1)

/-- Embeds `_renew_single_host` over a page snapshot: locate the host entry
(exact row, any element, case-insensitive, then partial match), handle the
alternate-layout branch that clicks a page-wide Renew/Confirm button
directly, and fall through to the button-search phase.  Returns the
`RenewalStatus` together with the number of control activations. -/
def renew_single_host (p : PageView) : RenewalStatus × Nat :=
  if p.tr_row_count == 0 then
    if 0 < p.host_elem_count then
      if 0 < p.page_renew_confirm_count then
        renewButtonPhase p RowSel.elemRow 1
      else
        (RenewalStatus.noRenewalNeeded, 0)
    else if 0 < p.ci_count then
      renewButtonPhase p RowSel.ciRow 0
    else if 0 < p.sub_count then
      renewButtonPhase p RowSel.subRow 0
    else
      (RenewalStatus.failed, 0)
  else
    renewButtonPhase p RowSel.trRow 0

/-- Embeds the per-host loop of `run_renewal_process`: each configured host
gets exactly one direct call of `_renew_single_host`, whose outcome is
appended to `renewal_results`.  The renewal behaviour is modelled by an
oracle giving the status of each successive invocation for a host; the
code performs only invocation 0. -/
def runHostLoop (hosts : List String)
    (renew : String → Nat → RenewalStatus) : List (String × RenewalStatus) :=
  hosts.map (fun host => (host, renew host 0))

/-- Embeds the result-processing loop of `run_renewal_process` with its
accumulators `hosts_renewed` and `hosts_failed`: SUCCESS hosts are appended
to the renewed list, NO_RENEWAL_NEEDED hosts are skipped, every other
status is appended to the failed list with its string value. -/
def processLoop : List (String × RenewalStatus) → List String →
    List (String × String) → List String × List (String × String)
  | [], renewed, failedL => (renewed, failedL)
  | (host, status) :: rest, renewed, failedL =>
    if status = RenewalStatus.success then
      processLoop rest (renewed ++ [host]) failedL
    else if status = RenewalStatus.noRenewalNeeded then
      processLoop rest renewed failedL
    else
      processLoop rest renewed (failedL ++ [(host, status.value)])

/-- The fields of the `results` dict of `run_renewal_process` that the
claims are about. -/
structure RunResults where
  hosts_renewed : List String
  hosts_failed : List (String × String)
  success : Bool
  deriving Repr

/-- Embeds the aggregation tail of `run_renewal_process`: process the
collected renewal results and set
`success = len(hosts_renewed) > 0 and len(hosts_failed) == 0`. -/
def processResults (renewal_results : List (String × RenewalStatus)) :
    RunResults :=
  let p := processLoop renewal_results [] []
  { hosts_renewed := p.1
    hosts_failed := p.2
    success := decide (0 < p.1.length) && decide (p.2.length = 0) }

/-- Embeds the guard of `send_final_notification`: returns whether the
notification is handed to the notification collaborator, which happens
unless renewed hosts, failed hosts and errors are all empty. -/
def send_final_notification (hosts_renewed : List String)
    (hosts_failed : List (String × String)) (errors : List String) : Bool :=
  !(hosts_renewed.isEmpty && hosts_failed.isEmpty && errors.isEmpty)

/-- Outcome of one iteration of the `monitor_renewal_schedule` loop. -/
structure SchedulerStep where
  /-- whether `run_renewal_process` was executed this iteration -/
  ran : Bool
  /-- content of the last-renewal timestamp record after the iteration -/
  new_last_run : Option Nat
  /-- seconds slept before the next check -/
  sleep_seconds : Nat
  deriving DecidableEq, Repr

/-- Embeds one iteration of `monitor_renewal_schedule`.  Timestamps are
seconds; `(now - last_run).days` becomes `(now - last) / 86400`.
`body_raises` abstracts an unexpected error in the loop body, modelled as
occurring before any effect: the `except` branch leaves the record alone
and sleeps 3600 seconds instead of 86400. -/
def monitor_iteration (last_run : Option Nat) (now : Nat)
    (body_raises : Bool) : SchedulerStep :=
  if body_raises then
    { ran := false, new_last_run := last_run, sleep_seconds := 3600 }
  else
    match last_run with
    | some last =>
      if 25 ≤ (now - last) / 86400 then
        { ran := true, new_last_run := some now, sleep_seconds := 86400 }
      else
        { ran := false, new_last_run := some last, sleep_seconds := 86400 }
    | none =>
      { ran := true, new_last_run := some now, sleep_seconds := 86400 }

/-- Attempt loop of the spec-modelled retrying host renewal: `specRetryGo b
i renew` performs invocation `i` and up to `b` further invocations,
stopping on any status other than RetryNeeded. -/
def specRetryGo : Nat → Nat → (Nat → RenewalStatus) → RenewalStatus
  | 0, i, renew => renew i
  | b + 1, i, renew =>
    match renew i with
    | RenewalStatus.retryNeeded => specRetryGo b (i + 1) renew
    | s => s

/-- Modelled from the spec: section 4.6 requires the orchestrator to run
each host renewal through the retry executor, so a RetryNeeded outcome is
re-attempted while attempt budget remains (`specRetryGo` is the attempt
loop, stopping on any status other than RetryNeeded).  This definition
follows the spec words, not the source (which calls `_renew_single_host`
directly), and exists to be compared with `runHostLoop`. -/
def spec_host_renew_with_retry (budget : Nat)
    (renew : Nat → RenewalStatus) : RenewalStatus :=
  match budget with
  | 0 => RenewalStatus.retryNeeded
  | b + 1 => specRetryGo b 0 renew

/-- Concrete renewal oracle: the first invocation reports RETRY_NEEDED, any
later invocation would succeed. -/
def oracleC1 : String → Nat → RenewalStatus :=
  fun _ attempt => if attempt == 0 then RenewalStatus.retryNeeded
    else RenewalStatus.success

/-- Structural form of the renewed-hosts accumulator of `processLoop`. -/
def renewedOf : List (String × RenewalStatus) → List String
  | [] => []
  | (host, status) :: rest =>
    if status = RenewalStatus.success then host :: renewedOf rest
    else renewedOf rest

/-- Structural form of the failed-hosts accumulator of `processLoop`. -/
def failedOf : List (String × RenewalStatus) → List (String × String)
  | [] => []
  | (host, status) :: rest =>
    if status = RenewalStatus.success then failedOf rest
    else if status = RenewalStatus.noRenewalNeeded then failedOf rest
    else (host, status.value) :: failedOf rest

theorem retryAux_all_fail (op : Nat → Except PyError α) :
    ∀ (fuel attempt : Nat) (last : Option PyError) (e : Nat → PyError),
      (∀ i, i ≤ fuel → op (attempt + i) = .error (e i) ∧
        (e i).isNonRetryable = false) →
      retryAux op attempt (fuel + 1) last =
        { result := .error (e fuel), invocations := fuel + 1, waits := fuel } := by
  intro fuel
  induction fuel with
  | zero =>
    intro attempt last e he
    obtain ⟨h0, h0n⟩ := he 0 (Nat.le_refl 0)
    rw [Nat.add_zero] at h0
    rw [retryAux, h0]
    simp [h0n, retryAux]
  | succ f ih =>
    intro attempt last e he
    obtain ⟨h0, h0n⟩ := he 0 (Nat.zero_le _)
    rw [Nat.add_zero] at h0
    have hrest := ih (attempt + 1) (some (e 0)) (fun i => e (i + 1))
      (fun i hi => by
        have hy := he (i + 1) (by omega)
        rwa [show attempt + (i + 1) = attempt + 1 + i by omega] at hy)
    rw [retryAux, h0]
    simp [h0n, hrest]

theorem retryAux_ok (op : Nat → Except PyError α) (v : α) :
    ∀ (k fuel attempt : Nat) (last : Option PyError) (e : Nat → PyError),
      k < fuel →
      (∀ i, i < k → op (attempt + i) = .error (e i) ∧
        (e i).isNonRetryable = false) →
      op (attempt + k) = .ok v →
      retryAux op attempt fuel last =
        { result := .ok v, invocations := k + 1, waits := k } := by
  intro k
  induction k with
  | zero =>
    intro fuel attempt last e hk he hok
    obtain ⟨f, rfl⟩ : ∃ f, fuel = f + 1 := ⟨fuel - 1, by omega⟩
    rw [Nat.add_zero] at hok
    rw [retryAux, hok]
  | succ kk ih =>
    intro fuel attempt last e hk he hok
    obtain ⟨f, rfl⟩ : ∃ f, fuel = f + 1 := ⟨fuel - 1, by omega⟩
    obtain ⟨h0, h0n⟩ := he 0 (Nat.succ_pos _)
    rw [Nat.add_zero] at h0
    have hrest := ih f (attempt + 1) (some (e 0)) (fun i => e (i + 1)) (by omega)
      (fun i hi => by
        have hy := he (i + 1) (by omega)
        rwa [show attempt + (i + 1) = attempt + 1 + i by omega] at hy)
      (by rwa [show attempt + (kk + 1) = attempt + 1 + kk by omega] at hok)
    have hf : 0 < f := by omega
    rw [retryAux, h0]
    simp [h0n, hrest, hf]

theorem retryAux_nonretryable (op : Nat → Except PyError α)
    (attempt fuel : Nat) (last : Option PyError) (e : PyError)
    (hop : op attempt = .error e) (hnr : e.isNonRetryable = true)
    (hf : 0 < fuel) :
    retryAux op attempt fuel last =
      { result := .error e, invocations := 1, waits := 0 } := by
  obtain ⟨f, rfl⟩ : ∃ f, fuel = f + 1 := ⟨fuel - 1, by omega⟩
  rw [retryAux, hop]
  simp [hnr]

theorem processLoop_eq (rs : List (String × RenewalStatus))
    (renewed : List String) (failedL : List (String × String)) :
    processLoop rs renewed failedL =
      (renewed ++ renewedOf rs, failedL ++ failedOf rs) := by
  induction rs generalizing renewed failedL with
  | nil => simp [processLoop, renewedOf, failedOf]
  | cons p rest ih =>
    obtain ⟨host, status⟩ := p
    by_cases hs : status = RenewalStatus.success
    · simp [processLoop, renewedOf, failedOf, hs, ih]
    · by_cases hn : status = RenewalStatus.noRenewalNeeded
      · simp [processLoop, renewedOf, failedOf, hs, hn, ih]
      · simp [processLoop, renewedOf, failedOf, hs, hn, ih]

theorem processResults_renewed (rs : List (String × RenewalStatus)) :
    (processResults rs).hosts_renewed = renewedOf rs := by
  simp [processResults, processLoop_eq]

theorem processResults_failed (rs : List (String × RenewalStatus)) :
    (processResults rs).hosts_failed = failedOf rs := by
  simp [processResults, processLoop_eq]

theorem processResults_success (rs : List (String × RenewalStatus)) :
    (processResults rs).success =
      (decide (0 < (renewedOf rs).length) && decide ((failedOf rs).length = 0)) := by
  simp [processResults, processLoop_eq]

theorem mem_renewedOf_imp {rs : List (String × RenewalStatus)} {h : String}
    (hm : h ∈ renewedOf rs) : (h, RenewalStatus.success) ∈ rs := by
  induction rs with
  | nil => simp [renewedOf] at hm
  | cons p rest ih =>
    obtain ⟨host, status⟩ := p
    by_cases hs : status = RenewalStatus.success
    · subst hs
      rw [renewedOf, if_pos rfl] at hm
      cases hm with
      | head => exact List.mem_cons_self _ _
      | tail _ hm => exact List.mem_cons_of_mem _ (ih hm)
    · rw [renewedOf, if_neg hs] at hm
      exact List.mem_cons_of_mem _ (ih hm)

theorem mem_failedOf_imp {rs : List (String × RenewalStatus)}
    {h sv : String} (hm : (h, sv) ∈ failedOf rs) :
    ∃ s : RenewalStatus, (h, s) ∈ rs ∧ s ≠ RenewalStatus.success ∧
      s ≠ RenewalStatus.noRenewalNeeded ∧ sv = s.value := by
  induction rs with
  | nil => simp [failedOf] at hm
  | cons p rest ih =>
    obtain ⟨host, status⟩ := p
    by_cases hs : status = RenewalStatus.success
    · subst hs
      rw [failedOf, if_pos rfl] at hm
      obtain ⟨s, h1, h2, h3, h4⟩ := ih hm
      exact ⟨s, List.mem_cons_of_mem _ h1, h2, h3, h4⟩
    · by_cases hn : status = RenewalStatus.noRenewalNeeded
      · subst hn
        rw [failedOf, if_neg hs, if_pos rfl] at hm
        obtain ⟨s, h1, h2, h3, h4⟩ := ih hm
        exact ⟨s, List.mem_cons_of_mem _ h1, h2, h3, h4⟩
      · rw [failedOf, if_neg hs, if_neg hn] at hm
        rcases List.mem_cons.mp hm with heq | hm2
        · have h1 : h = host := congrArg Prod.fst heq
          have h2 : sv = status.value := congrArg Prod.snd heq
          subst h1
          exact ⟨status, List.mem_cons_self _ _, hs, hn, h2⟩
        · obtain ⟨s, h1, h2, h3, h4⟩ := ih hm2
          exact ⟨s, List.mem_cons_of_mem _ h1, h2, h3, h4⟩

theorem failedOf_mem_intro {rs : List (String × RenewalStatus)}
    {h : String} {s : RenewalStatus} (hm : (h, s) ∈ rs)
    (h1 : s ≠ RenewalStatus.success) (h2 : s ≠ RenewalStatus.noRenewalNeeded) :
    (h, s.value) ∈ failedOf rs := by
  induction rs with
  | nil => cases hm
  | cons p rest ih =>
    obtain ⟨host, status⟩ := p
    rcases List.mem_cons.mp hm with heq | hm2
    · obtain ⟨h3, h4⟩ := Prod.mk.injEq .. ▸ heq
      subst h3; subst h4
      rw [failedOf, if_neg h1, if_neg h2]
      exact List.mem_cons_self _ _
    · by_cases hs : status = RenewalStatus.success
      · subst hs
        rw [failedOf, if_pos rfl]
        exact ih hm2
      · by_cases hn : status = RenewalStatus.noRenewalNeeded
        · subst hn
          rw [failedOf, if_neg hs, if_pos rfl]
          exact ih hm2
        · rw [failedOf, if_neg hs, if_neg hn]
          exact List.mem_cons_of_mem _ (ih hm2)

theorem renewedOf_eq_nil (rs : List (String × RenewalStatus)) :
    renewedOf rs = [] ↔ ∀ p ∈ rs, p.2 ≠ RenewalStatus.success := by
  induction rs with
  | nil => simp [renewedOf]
  | cons p rest ih =>
    obtain ⟨host, status⟩ := p
    by_cases hs : status = RenewalStatus.success
    · subst hs; simp [renewedOf, ih]
    · simp [renewedOf, hs, ih]

theorem failedOf_eq_nil (rs : List (String × RenewalStatus)) :
    failedOf rs = [] ↔ ∀ p ∈ rs,
      p.2 = RenewalStatus.success ∨ p.2 = RenewalStatus.noRenewalNeeded := by
  induction rs with
  | nil => simp [failedOf]
  | cons p rest ih =>
    obtain ⟨host, status⟩ := p
    by_cases hs : status = RenewalStatus.success
    · subst hs; simp [failedOf, ih]
    · by_cases hn : status = RenewalStatus.noRenewalNeeded
      · subst hn; simp [failedOf, hs, ih]
      · simp [failedOf, hs, hn, ih]

theorem nodup_key_inj {rs : List (String × RenewalStatus)}
    (hnd : (rs.map Prod.fst).Nodup) {h : String} {a b : RenewalStatus}
    (ha : (h, a) ∈ rs) (hb : (h, b) ∈ rs) : a = b := by
  induction rs with
  | nil => cases ha
  | cons p rest ih =>
    rw [List.map_cons, List.nodup_cons] at hnd
    rcases List.mem_cons.mp ha with heqa | hma
    · rcases List.mem_cons.mp hb with heqb | hmb
      · rw [← heqa] at heqb
        exact (congrArg Prod.snd heqb).symm
      · exfalso
        apply hnd.1
        rw [show p.1 = h from (congrArg Prod.fst heqa).symm]
        exact List.mem_map_of_mem Prod.fst hmb
    · rcases List.mem_cons.mp hb with heqb | hmb
      · exfalso
        apply hnd.1
        rw [show p.1 = h from (congrArg Prod.fst heqb).symm]
        exact List.mem_map_of_mem Prod.fst hma
      · exact ih hnd.2 hma hmb

/-- C2: for the retry executor with attempt budget n = max_retries ≥ 1:
an operation that fails retryably exactly k times (k < n) and then succeeds
yields the success value after exactly k+1 invocations; an operation that
fails retryably on every invocation is invoked exactly n times and the
executor raises; an operation that raises a non-retryable error on the
first invocation is invoked exactly once and the error propagates
immediately with no backoff wait. -/
theorem retry_executor_attempt_counts {α : Type} (n : Nat)
    (op : Nat → Except PyError α) (hn : 1 ≤ n) :
    (∀ (k : Nat) (v : α) (e : Nat → PyError), k < n →
      (∀ i, i < k → op i = .error (e i) ∧ (e i).isNonRetryable = false) →
      op k = .ok v →
      (retry_with_backoff n op).result = .ok v ∧
      (retry_with_backoff n op).invocations = k + 1) ∧
    (∀ e : Nat → PyError,
      (∀ i, i < n → op i = .error (e i) ∧ (e i).isNonRetryable = false) →
      (retry_with_backoff n op).invocations = n ∧
      ∃ err, (retry_with_backoff n op).result = .error err) ∧
    (∀ e : PyError, op 0 = .error e → e.isNonRetryable = true →
      (retry_with_backoff n op).result = .error e ∧
      (retry_with_backoff n op).invocations = 1 ∧
      (retry_with_backoff n op).waits = 0) := by
  refine ⟨?_, ?_, ?_⟩
  · intro k v e hk he hok
    have h := retryAux_ok op v k n 0 none e hk
      (fun i hi => by simpa using he i hi) (by simpa using hok)
    rw [retry_with_backoff, h]
    exact ⟨rfl, rfl⟩
  · intro e he
    obtain ⟨f, rfl⟩ : ∃ f, n = f + 1 := ⟨n - 1, by omega⟩
    have h := retryAux_all_fail op f 0 none e
      (fun i hi => by simpa using he i (by omega))
    rw [retry_with_backoff, h]
    exact ⟨rfl, e f, rfl⟩
  · intro e hop hnr
    have h := retryAux_nonretryable op 0 n none e hop hnr (by omega)
    rw [retry_with_backoff, h]
    exact ⟨rfl, rfl, rfl⟩

theorem retry_executor_attempt_counts_witness :
    ((retry_with_backoff 3 (fun i =>
        if i == 0 then .error (PyError.retryableError "boom")
        else .ok (42 : Nat))).result = .ok 42 ∧
      (retry_with_backoff 3 (fun i =>
        if i == 0 then .error (PyError.retryableError "boom")
        else .ok (42 : Nat))).invocations = 2) ∧
    ((retry_with_backoff 3 (fun _ =>
        (.error (PyError.nonRetryableError "denied") : Except PyError Nat))).result
        = .error (PyError.nonRetryableError "denied") ∧
      (retry_with_backoff 3 (fun _ =>
        (.error (PyError.nonRetryableError "denied") : Except PyError Nat))).invocations = 1 ∧
      (retry_with_backoff 3 (fun _ =>
        (.error (PyError.nonRetryableError "denied") : Except PyError Nat))).waits = 0) := by
  constructor
  · exact (retry_executor_attempt_counts 3 _ (by norm_num)).1 1 42
      (fun _ => PyError.retryableError "boom") (by norm_num)
      (fun i hi => by
        have hi0 : i = 0 := by omega
        subst hi0
        exact ⟨rfl, rfl⟩)
      rfl
  · exact (retry_executor_attempt_counts 3 _ (by norm_num)).2.2
      (PyError.nonRetryableError "denied") rfl rfl

/-- C7: when the retry executor exhausts its budget on an operation that
failed retryably on every attempt, the error it raises is exactly the
failure of the final attempt (the last underlying cause). -/
theorem retry_exhaustion_carries_last_cause {α : Type} (n : Nat)
    (op : Nat → Except PyError α) (e : Nat → PyError) (hn : 1 ≤ n)
    (he : ∀ i, i < n → op i = .error (e i) ∧ (e i).isNonRetryable = false) :
    (retry_with_backoff n op).result = .error (e (n - 1)) := by
  obtain ⟨f, rfl⟩ : ∃ f, n = f + 1 := ⟨n - 1, by omega⟩
  have h := retryAux_all_fail op f 0 none e
    (fun i hi => by simpa using he i (by omega))
  rw [retry_with_backoff, h]
  simp

theorem retry_exhaustion_carries_last_cause_witness :
    (retry_with_backoff 2 (fun i =>
      (.error (PyError.retryableError (if i == 0 then "first" else "second"))
        : Except PyError Nat))).result =
      .error (PyError.retryableError "second") := by
  have h := retry_exhaustion_carries_last_cause 2
    (fun i => (.error (PyError.retryableError (if i == 0 then "first" else "second"))
      : Except PyError Nat))
    (fun i => PyError.retryableError (if i == 0 then "first" else "second"))
    (by norm_num) (fun i hi => ⟨rfl, rfl⟩)
  simpa using h

/-- C10: with no initialized page, the guard-raised NonRetryableError("Page not
initialized") is caught by the keyword classifier inside
`safe_page_operation` and, matching no keyword, is reclassified as a
generic RetryableError, so the condition is retried up to the full attempt
budget instead of propagating immediately as non-retryable. -/
theorem missing_page_reclassified {α : Type} (n : Nat)
    (ops : Nat → Except String α) (hn : 1 ≤ n) :
    classify_error "Page not initialized" =
      PyError.retryableError "Generic error: Page not initialized" ∧
    (PyError.retryableError "Generic error: Page not initialized").isNonRetryable
      = false ∧
    (safe_page_operation n false ops).invocations = n ∧
    (safe_page_operation n false ops).result =
      .error (PyError.retryableError "Generic error: Page not initialized") := by
  have hcl : classify_error "Page not initialized" =
      PyError.retryableError "Generic error: Page not initialized" := by decide
  have hwrap : ∀ i, wrapped_operation false (ops i) =
      .error (PyError.retryableError "Generic error: Page not initialized") := by
    intro i
    rw [wrapped_operation]
    simpa using hcl
  obtain ⟨f, rfl⟩ : ∃ f, n = f + 1 := ⟨n - 1, by omega⟩
  have hall := retryAux_all_fail (fun i => wrapped_operation false (ops i)) f 0
    none (fun _ => PyError.retryableError "Generic error: Page not initialized")
    (fun i _ => ⟨hwrap (0 + i), rfl⟩)
  refine ⟨hcl, rfl, ?_, ?_⟩
  · rw [safe_page_operation, retry_with_backoff, hall]
  · rw [safe_page_operation, retry_with_backoff, hall]

theorem missing_page_reclassified_witness :
    (safe_page_operation 3 false (fun _ => Except.ok (0 : Nat))).invocations = 3 ∧
    (safe_page_operation 3 false (fun _ => Except.ok (0 : Nat))).result =
      .error (PyError.retryableError "Generic error: Page not initialized") := by
  have h := missing_page_reclassified 3 (fun _ => Except.ok (0 : Nat)) (by norm_num)
  exact ⟨h.2.2.1, h.2.2.2⟩

/-- C3: the classifier applies its rules with first match winning: a
lowercased message containing timeout/network/connection is
Retryable(network); otherwise one containing "element not found" or
"locator" is Retryable(element-not-found); otherwise one containing
permission/unauthorized/forbidden is NonRetryable(authorization); otherwise
Retryable(generic).  In particular a message containing both "timeout" and
"unauthorized" classifies as Retryable(network). -/
theorem classifier_precedence (msg : String) :
    (containsAny (lowerChars msg.toList) ["timeout", "network", "connection"]
        = true →
      classify_error msg = .retryableError ("Network error: " ++ msg)) ∧
    (containsAny (lowerChars msg.toList) ["timeout", "network", "connection"]
        = false →
      (charsContain (lowerChars msg.toList) "element not found".toList
        || charsContain (lowerChars msg.toList) "locator".toList) = true →
      classify_error msg = .retryableError ("Element not found: " ++ msg)) ∧
    (containsAny (lowerChars msg.toList) ["timeout", "network", "connection"]
        = false →
      (charsContain (lowerChars msg.toList) "element not found".toList
        || charsContain (lowerChars msg.toList) "locator".toList) = false →
      containsAny (lowerChars msg.toList)
        ["permission", "unauthorized", "forbidden"] = true →
      classify_error msg = .nonRetryableError ("Authorization error: " ++ msg)) ∧
    (containsAny (lowerChars msg.toList) ["timeout", "network", "connection"]
        = false →
      (charsContain (lowerChars msg.toList) "element not found".toList
        || charsContain (lowerChars msg.toList) "locator".toList) = false →
      containsAny (lowerChars msg.toList)
        ["permission", "unauthorized", "forbidden"] = false →
      classify_error msg = .retryableError ("Generic error: " ++ msg)) ∧
    (charsContain (lowerChars msg.toList) "timeout".toList = true →
      charsContain (lowerChars msg.toList) "unauthorized".toList = true →
      classify_error msg = .retryableError ("Network error: " ++ msg)) := by
  refine ⟨?_, ?_, ?_, ?_, ?_⟩
  · intro h1
    rw [classify_error]
    simp only [h1, if_true]
  · intro h1 h2
    rw [classify_error]
    simp only [h1, h2, Bool.false_eq_true, if_false, if_true]
  · intro h1 h2 h3
    rw [classify_error]
    simp only [h1, h2, h3, Bool.false_eq_true, if_false, if_true]
  · intro h1 h2 h3
    rw [classify_error]
    simp only [h1, h2, h3, Bool.false_eq_true, if_false]
  · intro ht hu
    rw [classify_error]
    have h1 : containsAny (lowerChars msg.toList)
        ["timeout", "network", "connection"] = true := by
      simp only [containsAny, List.any_cons, List.any_nil, Bool.or_eq_true]
      exact Or.inl ht
    simp only [h1, if_true]

theorem classifier_precedence_witness :
    classify_error "Operation timeout: request unauthorized" =
      .retryableError
        ("Network error: " ++ "Operation timeout: request unauthorized") ∧
    classify_error "User unauthorized" =
      .nonRetryableError ("Authorization error: " ++ "User unauthorized") := by
  constructor
  · exact (classifier_precedence "Operation timeout: request unauthorized").2.2.2.2
      (by decide) (by decide)
  · exact (classifier_precedence "User unauthorized").2.2.1
      (by decide) (by decide) (by decide)

/-- C4: with jitter disabled the backoff delay equals
min(baseDelay * exponentialBase ^ attemptIndex, maxDelay) and is monotone
non-decreasing in the attempt index; in all cases the delay lies in
[0, maxDelay * 1.1], given a valid policy and a jitter draw in [0, 1]. -/
theorem backoff_delay_bounds (cfg : RetryConfig) (i j : Nat) (rand : ℚ)
    (hb : 0 < cfg.base_delay) (hm : cfg.base_delay ≤ cfg.max_delay)
    (he : 1 < cfg.exponential_base) (hr0 : 0 ≤ rand) (hr1 : rand ≤ 1) :
    (cfg.jitter = false →
      calculate_retry_delay cfg i rand =
        min (cfg.base_delay * cfg.exponential_base ^ i) cfg.max_delay ∧
      (i ≤ j →
        calculate_retry_delay cfg i rand ≤ calculate_retry_delay cfg j rand)) ∧
    (0 ≤ calculate_retry_delay cfg i rand ∧
      calculate_retry_delay cfg i rand ≤ cfg.max_delay * (11/10)) := by
  have hep : (0 : ℚ) < cfg.exponential_base := lt_trans one_pos he
  have hM : (0 : ℚ) < cfg.max_delay := lt_of_lt_of_le hb hm
  have hd : ∀ k : Nat,
      0 < min (cfg.base_delay * cfg.exponential_base ^ k) cfg.max_delay :=
    fun k => lt_min (mul_pos hb (pow_pos hep k)) hM
  have hdM : ∀ k : Nat,
      min (cfg.base_delay * cfg.exponential_base ^ k) cfg.max_delay
        ≤ cfg.max_delay := fun k => min_le_right _ _
  constructor
  · intro hj
    refine ⟨by rw [calculate_retry_delay, hj]; simp, ?_⟩
    intro hij
    rw [calculate_retry_delay, calculate_retry_delay, hj]
    simp only [Bool.false_eq_true, if_false]
    exact min_le_min
      (mul_le_mul_of_nonneg_left (pow_le_pow_right₀ (le_of_lt he) hij)
        (le_of_lt hb)) le_rfl
  · rw [calculate_retry_delay]
    have h1 := hd i
    have h2 := hdM i
    set d := min (cfg.base_delay * cfg.exponential_base ^ i) cfg.max_delay
      with hdef
    cases hj : cfg.jitter with
    | false =>
      simp only [Bool.false_eq_true, if_false]
      exact ⟨le_of_lt h1, by nlinarith⟩
    | true =>
      simp only [if_true]
      exact ⟨by nlinarith, by nlinarith⟩

theorem backoff_delay_bounds_witness :
    0 ≤ calculate_retry_delay (⟨3, 1, 60, 2, true⟩ : RetryConfig) 3 (1/2) ∧
    calculate_retry_delay (⟨3, 1, 60, 2, true⟩ : RetryConfig) 3 (1/2)
      ≤ 60 * (11/10) := by
  have h := (backoff_delay_bounds (⟨3, 1, 60, 2, true⟩ : RetryConfig) 3 5 (1/2)
    (by norm_num) (by norm_num) (by norm_num) (by norm_num) (by norm_num)).2
  exact h

/-- C5: for any assignment of outcomes to distinct hosts, the report
overall success flag is true iff at least one outcome is Success and no
host has a failing outcome (anything other than Success or
NoRenewalNeeded), and a NoRenewalNeeded host appears in neither the
renewed nor the failed list. -/
theorem run_report_invariants (rs : List (String × RenewalStatus))
    (hnd : (rs.map Prod.fst).Nodup) :
    ((processResults rs).success = true ↔
      (∃ p ∈ rs, p.2 = RenewalStatus.success) ∧
        ∀ p ∈ rs, p.2 = RenewalStatus.success ∨
          p.2 = RenewalStatus.noRenewalNeeded) ∧
    (∀ h : String, (h, RenewalStatus.noRenewalNeeded) ∈ rs →
      h ∉ (processResults rs).hosts_renewed ∧
      ∀ sv : String, (h, sv) ∉ (processResults rs).hosts_failed) := by
  constructor
  · rw [processResults_success, Bool.and_eq_true, decide_eq_true_iff,
      decide_eq_true_iff]
    constructor
    · rintro ⟨h1, h2⟩
      refine ⟨?_, (failedOf_eq_nil rs).mp (List.length_eq_zero.mp h2)⟩
      by_contra hc
      push_neg at hc
      have hnil : renewedOf rs = [] := (renewedOf_eq_nil rs).mpr hc
      rw [hnil] at h1
      simp at h1
    · rintro ⟨⟨p, hp, hps⟩, hall⟩
      constructor
      · exact List.length_pos.mpr
          (fun hnil => ((renewedOf_eq_nil rs).mp hnil p hp) hps)
      · rw [(failedOf_eq_nil rs).mpr hall]
        rfl
  · intro h hm
    constructor
    · rw [processResults_renewed]
      intro hmem
      have hs := nodup_key_inj hnd (mem_renewedOf_imp hmem) hm
      cases hs
    · intro sv
      rw [processResults_failed]
      intro hmem
      obtain ⟨s, h1, h2, h3, _⟩ := mem_failedOf_imp hmem
      exact h3 (nodup_key_inj hnd h1 hm)

theorem run_report_invariants_witness :
    (processResults [("hostA.ddns.net", RenewalStatus.success),
        ("hostB.ddns.net", RenewalStatus.noRenewalNeeded)]).success = true ∧
    "hostB.ddns.net" ∉ (processResults [("hostA.ddns.net", RenewalStatus.success),
        ("hostB.ddns.net", RenewalStatus.noRenewalNeeded)]).hosts_renewed := by
  have h := run_report_invariants
    [("hostA.ddns.net", RenewalStatus.success),
      ("hostB.ddns.net", RenewalStatus.noRenewalNeeded)] (by decide)
  refine ⟨h.1.mpr ⟨⟨("hostA.ddns.net", RenewalStatus.success), by decide⟩,
    by decide⟩, (h.2 "hostB.ddns.net" (by decide)).1⟩

/-- C6: with the host entry located somewhere, if no renewal, confirm,
extend or update control exists in the entry or anywhere on the page the
outcome is NoRenewalNeeded with no control activated; if a control was
activated and a success phrase appears in the content the outcome is
Success; if a control was activated and no success phrase appears the
outcome is RetryNeeded. -/
theorem host_renewal_outcomes (p : PageView) :
    ((0 < p.tr_row_count ∨ 0 < p.host_elem_count ∨ 0 < p.ci_count ∨
        0 < p.sub_count) →
      (∀ r, p.row_button_count r = 0) →
      p.page_renew_confirm_count = 0 → p.page_extend_update_count = 0 →
      renew_single_host p = (RenewalStatus.noRenewalNeeded, 0)) ∧
    (0 < (renew_single_host p).2 → p.content_success = true →
      (renew_single_host p).1 = RenewalStatus.success) ∧
    (0 < (renew_single_host p).2 → p.content_success = false →
      (renew_single_host p).1 = RenewalStatus.retryNeeded) := by
  have hclick : 0 < (renew_single_host p).2 →
      (renew_single_host p).1 = checkRenewalContent p := by
    intro hact
    unfold renew_single_host renewButtonPhase at hact ⊢
    split_ifs at hact ⊢ <;> simp_all
  refine ⟨?_, ?_, ?_⟩
  · intro hloc hrow hpr hpe
    unfold renew_single_host renewButtonPhase
    simp only [hrow, hpr, hpe]
    split_ifs <;> simp_all
  · intro hact hcs
    rw [hclick hact, checkRenewalContent, hcs]
    rfl
  · intro hact hcs
    rw [hclick hact, checkRenewalContent, hcs]
    rfl

theorem host_renewal_outcomes_witness :
    renew_single_host
      { tr_row_count := 1, host_elem_count := 1, ci_count := 0, sub_count := 0,
        page_renew_confirm_count := 0, page_extend_update_count := 0,
        row_button_count := fun _ => 0, content_success := false } =
      (RenewalStatus.noRenewalNeeded, 0) ∧
    (renew_single_host
      { tr_row_count := 1, host_elem_count := 1, ci_count := 0, sub_count := 0,
        page_renew_confirm_count := 1, page_extend_update_count := 0,
        row_button_count := fun _ => 1, content_success := true }).1 =
      RenewalStatus.success := by
  constructor
  · exact (host_renewal_outcomes _).1 (Or.inl (by norm_num)) (fun _ => rfl)
      rfl rfl
  · exact (host_renewal_outcomes _).2.1 (by decide) rfl

/-- C1 counterexample: with the default attempt budget of 3, a host whose
first renewal invocation yields RetryNeeded and whose second would yield
Success is nevertheless recorded in the failed list with status
retry_needed — the orchestration loop performs a single direct call of
`_renew_single_host`, whereas the spec-modelled retrying loop would reach
Success within the budget. -/
theorem orchestration_retry_counterexample :
    (processResults (runHostLoop ["host1.ddns.net"] oracleC1)).hosts_failed
      = [("host1.ddns.net", "retry_needed")] ∧
    (processResults (runHostLoop ["host1.ddns.net"] oracleC1)).success
      = false ∧
    oracleC1 "host1.ddns.net" 1 = RenewalStatus.success ∧
    spec_host_renew_with_retry 3 (oracleC1 "host1.ddns.net")
      = RenewalStatus.success := by
  refine ⟨?_, ?_, rfl, rfl⟩ <;> rfl

/-- C1 amended: the orchestration run invokes the per-host renewal exactly
once per host, directly and not through the retry executor, so a renewal
whose (single) invocation yields RetryNeeded is recorded as the final result of the host
final result, appearing in the failed list with status retry_needed. -/
theorem orchestration_single_attempt (hosts : List String)
    (renew : String → Nat → RenewalStatus) (h : String)
    (hm : h ∈ hosts) (hr : renew h 0 = RenewalStatus.retryNeeded) :
    runHostLoop hosts renew = hosts.map (fun host => (host, renew host 0)) ∧
    (h, "retry_needed") ∈
      (processResults (runHostLoop hosts renew)).hosts_failed := by
  refine ⟨rfl, ?_⟩
  rw [processResults_failed]
  have hmem : (h, RenewalStatus.retryNeeded) ∈ runHostLoop hosts renew := by
    rw [runHostLoop]
    exact List.mem_map.mpr ⟨h, hm, by rw [hr]⟩
  have h2 := failedOf_mem_intro hmem (by simp) (by simp)
  simpa [RenewalStatus.value] using h2

theorem orchestration_single_attempt_witness :
    (runHostLoop ["host1.ddns.net"] oracleC1
        = [("host1.ddns.net", oracleC1 "host1.ddns.net" 0)]) ∧
    ("host1.ddns.net", "retry_needed") ∈
      (processResults (runHostLoop ["host1.ddns.net"] oracleC1)).hosts_failed := by
  exact orchestration_single_attempt ["host1.ddns.net"] oracleC1
    "host1.ddns.net" (by simp) rfl

/-- C8: the final report is handed to the notification collaborator unless
renewed hosts, failed hosts and errors are all empty; a run where every
host outcome is NoRenewalNeeded has empty renewed and failed lists,
sends no notification, and has overall success false. -/
theorem notification_guard (renewed : List String)
    (failedL : List (String × String)) (errors : List String)
    (hosts : List String) :
    (send_final_notification renewed failedL errors = false ↔
      renewed = [] ∧ failedL = [] ∧ errors = []) ∧
    ((processResults (hosts.map
        (fun h => (h, RenewalStatus.noRenewalNeeded)))).hosts_renewed = [] ∧
      (processResults (hosts.map
        (fun h => (h, RenewalStatus.noRenewalNeeded)))).hosts_failed = [] ∧
      send_final_notification
        (processResults (hosts.map
          (fun h => (h, RenewalStatus.noRenewalNeeded)))).hosts_renewed
        (processResults (hosts.map
          (fun h => (h, RenewalStatus.noRenewalNeeded)))).hosts_failed
        [] = false ∧
      (processResults (hosts.map
        (fun h => (h, RenewalStatus.noRenewalNeeded)))).success = false) := by
  have hren : (processResults (hosts.map
      (fun h => (h, RenewalStatus.noRenewalNeeded)))).hosts_renewed = [] := by
    rw [processResults_renewed]
    exact (renewedOf_eq_nil _).mpr (by
      intro p hp
      obtain ⟨x, _, rfl⟩ := List.mem_map.mp hp
      simp)
  have hfail : (processResults (hosts.map
      (fun h => (h, RenewalStatus.noRenewalNeeded)))).hosts_failed = [] := by
    rw [processResults_failed]
    exact (failedOf_eq_nil _).mpr (by
      intro p hp
      obtain ⟨x, _, rfl⟩ := List.mem_map.mp hp
      simp)
  refine ⟨?_, hren, hfail, ?_, ?_⟩
  · rw [send_final_notification]
    cases renewed <;> cases failedL <;> cases errors <;>
      simp [List.isEmpty]
  · rw [hren, hfail, send_final_notification]
    rfl
  · rw [processResults_success]
    have : renewedOf (hosts.map (fun h => (h, RenewalStatus.noRenewalNeeded)))
        = [] := by
      rw [← processResults_renewed]
      exact hren
    rw [this]
    rfl

/-- C9: in an error-free iteration the scheduler executes a renewal run iff
the persisted timestamp is absent or at least 25 days have elapsed; the
timestamp record is overwritten with the current time exactly when a run
executed and left unchanged otherwise; the sleep before the next check is
24 hours, shortened to 1 hour when the loop body raises. -/
theorem scheduler_iteration (last_run : Option Nat) (now : Nat) (b : Bool) :
    ((monitor_iteration last_run now false).ran = true ↔
      last_run = none ∨
        ∃ l, last_run = some l ∧ 25 ≤ (now - l) / 86400) ∧
    ((monitor_iteration last_run now false).ran = true →
      (monitor_iteration last_run now false).new_last_run = some now) ∧
    ((monitor_iteration last_run now false).ran = false →
      (monitor_iteration last_run now false).new_last_run = last_run) ∧
    (monitor_iteration last_run now b).sleep_seconds =
      (if b then 3600 else 86400) := by
  refine ⟨?_, ?_, ?_, ?_⟩
  · cases last_run with
    | none => simp [monitor_iteration]
    | some l =>
      rw [monitor_iteration]
      simp only [Bool.false_eq_true, if_false]
      split_ifs with hd
      · simp [hd]
      · simp [hd]
  · cases last_run with
    | none => intro _; simp [monitor_iteration]
    | some l =>
      rw [monitor_iteration]
      simp only [Bool.false_eq_true, if_false]
      split_ifs <;> simp
  · cases last_run with
    | none => intro hc; simp [monitor_iteration] at hc
    | some l =>
      rw [monitor_iteration]
      simp only [Bool.false_eq_true, if_false]
      split_ifs <;> simp
  · cases b with
    | false =>
      cases last_run with
      | none => simp [monitor_iteration]
      | some l =>
        rw [monitor_iteration]
        simp only [Bool.false_eq_true, if_false]
        split_ifs <;> rfl
    | true => rfl

theorem scheduler_iteration_witness :
    (monitor_iteration (some 0) (86400 * 30) false).ran = true ∧
    (monitor_iteration (some 0) (86400 * 30) false).new_last_run
      = some (86400 * 30) ∧
    (monitor_iteration (some 0) (86400 * 30) true).sleep_seconds = 3600 := by
  have h := scheduler_iteration (some 0) (86400 * 30) true
  have hr : (monitor_iteration (some 0) (86400 * 30) false).ran = true :=
    h.1.mpr (Or.inr ⟨0, rfl, by norm_num⟩)
  exact ⟨hr, h.2.1 hr, by rw [h.2.2.2]; rfl⟩

end NoIP
